import Mathlib

/-!
Verification of the MQTT configuration client `nuki_mqtt_config.py`
(class `NukiConfigClient`, the key/value coercion loop in `main`, and
`fetch_coredump`).  The Python code is embedded shallowly: the mutable
fields of `NukiConfigClient` become a `ClientState` record, the paho-mqtt
callback `on_message` becomes a state transition, and the blocking calls
`update_config` / `wait_for_ip` become functions over the finite trace of
bus messages delivered before the deadline (an exhausted trace models the
timeout).  `json.loads` / `json.dumps` are embedded as executable
functions over a `Json` value type.
-/

namespace NukiHub

/-- ASCII lower-casing of one character, as `str.lower` acts on the ASCII
range (the only range exercised by the CLI). -/
def lowerChar (c : Char) : Char :=
  if 65 ≤ c.toNat ∧ c.toNat ≤ 90 then Char.ofNat (c.toNat + 32) else c

/-- `str.lower` for the strings this client handles. -/
def pyLower (s : String) : String := String.mk (s.data.map lowerChar)

/-- Characters stripped by `int(str)` before parsing (ASCII whitespace). -/
def isPySpace (c : Char) : Bool :=
  c = ' ' || c = '\t' || c = '\n' || c = '\x0d' || c = '\x0b' || c = '\x0c'

/-- `revPrefixOf a b` is true when `a` is a prefix of `b`; applied to
reversed character lists it implements a suffix test. -/
def revPrefixOf : List Char → List Char → Bool
  | [], _ => true
  | _ :: _, [] => false
  | a :: as, b :: bs => a = b && revPrefixOf as bs

/-- Python's `str.endswith`. -/
def strEndsWith (s suffix : String) : Bool :=
  revPrefixOf suffix.data.reverse s.data.reverse

/-- Digit-run parser underlying `int(str)`: after the optional sign, a
digit sequence in which single underscores may separate digits (PEP 515).
`lastDigit` records whether the previous character was a digit, so an
underscore is accepted only between two digits. -/
def pyDigitsAux : List Char → Nat → Bool → Option Nat
  | [], _, false => none
  | [], acc, true => some acc
  | c :: rest, acc, lastDigit =>
      if c.isDigit then pyDigitsAux rest (acc * 10 + (c.toNat - 48)) true
      else if c = '_' && lastDigit then pyDigitsAux rest acc false
      else none

/-- The sign-and-digits part of `int(str)` after whitespace stripping. -/
def pyIntChars : List Char → Option Int
  | [] => none
  | c :: rest =>
    if c = '+' then (pyDigitsAux rest 0 false).map Int.ofNat
    else if c = '-' then (pyDigitsAux rest 0 false).map (fun n => -Int.ofNat n)
    else (pyDigitsAux (c :: rest) 0 false).map Int.ofNat

/-- Code points CPython's `Py_UNICODE_ISSPACE` treats as whitespace
(ASCII whitespace, the 0x1C-0x1F separators, NEL, NBSP and the Unicode
space characters). -/
def pySpaceCodes : List Nat :=
  [9, 10, 11, 12, 13, 28, 29, 30, 31, 32, 133, 160, 5760,
   8192, 8193, 8194, 8195, 8196, 8197, 8198, 8199, 8200, 8201, 8202,
   8232, 8233, 8239, 8287, 12288]

def isPyUniSpace (c : Char) : Bool := pySpaceCodes.contains c.toNat

/-- First code point of each run of ten consecutive decimal digits
(Unicode general category Nd) outside ASCII, as recognized by CPython's
numeric conversion. -/
def ndRangeStarts : List Nat :=
  [0x0660, 0x06F0, 0x07C0, 0x0966, 0x09E6, 0x0A66, 0x0AE6, 0x0B66,
   0x0BE6, 0x0C66, 0x0CE6, 0x0D66, 0x0DE6, 0x0E50, 0x0ED0, 0x0F20,
   0x1040, 0x1090, 0x17E0, 0x1810, 0x1946, 0x19D0, 0x1A80, 0x1A90,
   0x1B50, 0x1BB0, 0x1C40, 0x1C50, 0xA620, 0xA8D0, 0xA900, 0xA9D0,
   0xA9F0, 0xAA50, 0xABF0, 0xFF10, 0x104A0, 0x10D30, 0x11066, 0x110F0,
   0x11136, 0x111D0, 0x112F0, 0x11450, 0x114D0, 0x11650, 0x116C0,
   0x11730, 0x118E0, 0x11950, 0x11C50, 0x11D50, 0x11DA0, 0x11F50,
   0x16A60, 0x16AC0, 0x16B50, 0x1D7CE, 0x1D7D8, 0x1D7E2, 0x1D7EC,
   0x1D7F6, 0x1E140, 0x1E2F0, 0x1E4F0, 0x1E950, 0x1FBF0]

/-- Decimal value of a non-ASCII Unicode decimal digit, `none` for
everything else. -/
def decimalDigitVal (c : Char) : Option Nat :=
  match ndRangeStarts.find? (fun b => b ≤ c.toNat && c.toNat ≤ b + 9) with
  | some b => some (c.toNat - b)
  | none => none

/-- One character of CPython's `_PyUnicode_TransformDecimalAndSpaceToASCII`
step used by `int(str)`: ASCII whitespace and Unicode whitespace become a
space, ASCII characters pass through, non-ASCII decimal digits become the
ASCII digit of the same value, and any other non-ASCII character makes the
conversion fail. -/
def transformChar (c : Char) : Option Char :=
  if c.toNat < 128 then
    if isPyUniSpace c then some ' ' else some c
  else
    match decimalDigitVal c with
    | some d => some (Char.ofNat (48 + d))
    | none => if isPyUniSpace c then some ' ' else none

def transformDecimal : List Char → Option (List Char)
  | [] => some []
  | c :: rest =>
    match transformChar c, transformDecimal rest with
    | some c2, some rest2 => some (c2 :: rest2)
    | _, _ => none

/-- Python `int(str)` (base 10): normalize Unicode decimal digits and
whitespace to ASCII (failing on any other non-ASCII character), strip
surrounding whitespace, then an optional single sign followed by digits
possibly separated by single underscores.  Returns `none` where CPython
raises `ValueError`. -/
def pyInt (s : String) : Option Int :=
  (transformDecimal s.data).bind (fun cs =>
    pyIntChars (((cs.dropWhile isPySpace).reverse.dropWhile isPySpace).reverse))

/-- Values produced by Python's `json` module: `null`, booleans, `int`,
`float` (represented exactly as a decimal mantissa/exponent pair as read
from the text, since no claim compares floats), the `NaN` / `Infinity`
extensions, strings, arrays and objects (insertion-ordered dicts). -/
inductive Json where
  | null : Json
  | bool (b : Bool) : Json
  | int (n : Int) : Json
  | num (mantissa : Int) (exp10 : Int) : Json
  | nan : Json
  | infinity (neg : Bool) : Json
  | str (s : String) : Json
  | arr (xs : List Json) : Json
  | obj (kvs : List (String × Json)) : Json

/-- Python-dict insertion: a duplicate key replaces the stored value in
place, a new key is appended. -/
def dictInsert (d : List (String × Json)) (k : String) (v : Json) :
    List (String × Json) :=
  if d.any (fun p => p.1 = k) then
    d.map (fun p => if p.1 = k then (k, v) else p)
  else d ++ [(k, v)]

/-- First-match association lookup (Python dict read). -/
def dictLookup (d : List (String × Json)) (k : String) : Option Json :=
  match d with
  | [] => none
  | p :: rest => if p.1 = k then some p.2 else dictLookup rest k

/-- JSON insignificant whitespace, as skipped by `json.loads`. -/
def isJsonWs (c : Char) : Bool := c = ' ' || c = '\t' || c = '\n' || c = '\x0d'

def skipWs (cs : List Char) : List Char := cs.dropWhile isJsonWs

/-- Strip a literal off the front of the input, or fail. -/
def stripPre : List Char → List Char → Option (List Char)
  | [], cs => some cs
  | _ :: _, [] => none
  | p :: ps, c :: cs => if c = p then stripPre ps cs else none

def hexDigitVal (c : Char) : Option Nat :=
  if c.isDigit then some (c.toNat - 48)
  else if 97 ≤ c.toNat ∧ c.toNat ≤ 102 then some (c.toNat - 87)
  else if 65 ≤ c.toNat ∧ c.toNat ≤ 70 then some (c.toNat - 55)
  else none

def hex4Val : List Char → Option (Nat × List Char)
  | a :: b :: c :: d :: rest =>
      match hexDigitVal a, hexDigitVal b, hexDigitVal c, hexDigitVal d with
      | some x, some y, some z, some w =>
          some (((x * 16 + y) * 16 + z) * 16 + w, rest)
      | _, _, _, _ => none
  | _ => none

/-- Build a character from a scalar value; lone surrogates (which CPython
keeps as unpaired code units) are not representable and map to U+FFFD. -/
def mkCharSafe (n : Nat) : Char :=
  if n < 55296 || (57344 ≤ n && n ≤ 1114111) then Char.ofNat n
  else Char.ofNat 65533

/-- String-body scanner of the strict `json` decoder: plain characters
below U+0020 are rejected, backslash escapes are decoded, and a
high/low `\uXXXX` surrogate pair is combined into one scalar. -/
def parseStringRest : Nat → List Char → List Char → Option (String × List Char)
  | 0, _, _ => none
  | _ + 1, [], _ => none
  | fuel + 1, c :: rest, acc =>
    if c = '"' then some (String.mk acc.reverse, rest)
    else if c = '\\' then
      match rest with
      | [] => none
      | e :: rest2 =>
        if e = '"' then parseStringRest fuel rest2 ('"' :: acc)
        else if e = '\\' then parseStringRest fuel rest2 ('\\' :: acc)
        else if e = '/' then parseStringRest fuel rest2 ('/' :: acc)
        else if e = 'b' then parseStringRest fuel rest2 ('\x08' :: acc)
        else if e = 'f' then parseStringRest fuel rest2 ('\x0c' :: acc)
        else if e = 'n' then parseStringRest fuel rest2 ('\n' :: acc)
        else if e = 'r' then parseStringRest fuel rest2 ('\x0d' :: acc)
        else if e = 't' then parseStringRest fuel rest2 ('\t' :: acc)
        else if e = 'u' then
          match hex4Val rest2 with
          | none => none
          | some (u1, rest3) =>
            if 55296 ≤ u1 && u1 ≤ 56319 then
              match rest3 with
              | '\\' :: 'u' :: rest4 =>
                match hex4Val rest4 with
                | some (u2, rest5) =>
                  if 56320 ≤ u2 && u2 ≤ 57343 then
                    parseStringRest fuel rest5
                      (mkCharSafe (65536 + (u1 - 55296) * 1024 + (u2 - 56320)) :: acc)
                  else parseStringRest fuel rest3 (mkCharSafe u1 :: acc)
                | none => parseStringRest fuel rest3 (mkCharSafe u1 :: acc)
              | _ => parseStringRest fuel rest3 (mkCharSafe u1 :: acc)
            else parseStringRest fuel rest3 (mkCharSafe u1 :: acc)
        else none
    else if c.toNat < 32 then none
    else parseStringRest fuel rest (c :: acc)

def digitsToNat (ds : List Char) : Nat :=
  ds.foldl (fun acc c => acc * 10 + (c.toNat - 48)) 0

/-- JSON number grammar: `-? (0 | [1-9][0-9]*) frac? exp?`; an integer
literal (no fraction, no exponent) becomes a Python `int`, anything else
a `float` kept as mantissa and power of ten. -/
def parseNumber (cs : List Char) : Option (Json × List Char) :=
  let signed := match cs with
    | '-' :: t => some (true, t)
    | _ => some (false, cs)
  match signed with
  | none => none
  | some (neg, cs1) =>
    let ipart := cs1.takeWhile Char.isDigit
    let cs2 := cs1.dropWhile Char.isDigit
    if ipart.isEmpty then none
    else if ipart.length > 1 && ipart.headD '0' = '0' then none
    else
      let fracRes : Option (List Char × List Char) :=
        match cs2 with
        | '.' :: t =>
            let f := t.takeWhile Char.isDigit
            if f.isEmpty then none else some (f, t.dropWhile Char.isDigit)
        | _ => some ([], cs2)
      match fracRes with
      | none => none
      | some (fpart, cs3) =>
        let expRes : Option (Option Int × List Char) :=
          match cs3 with
          | e :: t =>
            if e = 'e' || e = 'E' then
              let signedE := match t with
                | '+' :: t2 => (1, t2)
                | '-' :: t2 => (-1, t2)
                | _ => ((1 : Int), t)
              let ds := signedE.2.takeWhile Char.isDigit
              if ds.isEmpty then none
              else some (some (signedE.1 * (digitsToNat ds : Int)),
                         signedE.2.dropWhile Char.isDigit)
            else some (none, cs3)
          | [] => some (none, cs3)
        match expRes with
        | none => none
        | some (eo, cs4) =>
          let mag : Int := (digitsToNat (ipart ++ fpart) : Int)
          let m : Int := if neg then -mag else mag
          match fpart, eo with
          | [], none =>
              some (Json.int (if neg then -(digitsToNat ipart : Int)
                              else (digitsToNat ipart : Int)), cs2)
          | _, _ =>
              some (Json.num m ((eo.getD 0) - (fpart.length : Int)), cs4)

mutual

/-- One JSON value, mirroring the scanner of Python's `json` module
(constants first, including the non-standard `NaN` / `Infinity` /
`-Infinity`, then strings, containers and numbers). -/
def parseVal : Nat → List Char → Option (Json × List Char)
  | 0, _ => none
  | fuel + 1, cs =>
    match cs with
    | [] => none
    | c :: rest =>
      if c = '"' then
        match parseStringRest (rest.length + 1) rest [] with
        | some (s, cs2) => some (Json.str s, cs2)
        | none => none
      else if c = '[' then
        let cs2 := skipWs rest
        match cs2 with
        | ']' :: cs3 => some (Json.arr [], cs3)
        | _ =>
          match parseArrItems fuel cs2 [] with
          | some (xs, cs3) => some (Json.arr xs, cs3)
          | none => none
      else if c = Char.ofNat 123 then
        let cs2 := skipWs rest
        match cs2 with
        | c2 :: cs3 =>
          if c2 = Char.ofNat 125 then some (Json.obj [], cs3)
          else
            match parseObjItems fuel cs2 [] with
            | some (kvs, cs4) => some (Json.obj kvs, cs4)
            | none => none
        | [] => none
      else
        match stripPre "true".data cs with
        | some cs2 => some (Json.bool true, cs2)
        | none =>
        match stripPre "false".data cs with
        | some cs2 => some (Json.bool false, cs2)
        | none =>
        match stripPre "null".data cs with
        | some cs2 => some (Json.null, cs2)
        | none =>
        match stripPre "NaN".data cs with
        | some cs2 => some (Json.nan, cs2)
        | none =>
        match stripPre "Infinity".data cs with
        | some cs2 => some (Json.infinity false, cs2)
        | none =>
        match stripPre "-Infinity".data cs with
        | some cs2 => some (Json.infinity true, cs2)
        | none => parseNumber cs

/-- Array items after the opening bracket (input known non-`]`). -/
def parseArrItems : Nat → List Char → List Json → Option (List Json × List Char)
  | 0, _, _ => none
  | fuel + 1, cs, acc =>
    match parseVal fuel cs with
    | none => none
    | some (v, cs2) =>
      match skipWs cs2 with
      | ',' :: cs3 => parseArrItems fuel (skipWs cs3) (v :: acc)
      | ']' :: cs3 => some ((v :: acc).reverse, cs3)
      | _ => none

/-- Object members after the opening brace (input known non-empty-object);
duplicate keys follow dict semantics (last value wins). -/
def parseObjItems : Nat → List Char → List (String × Json) →
    Option (List (String × Json) × List Char)
  | 0, _, _ => none
  | fuel + 1, cs, acc =>
    match cs with
    | '"' :: cs1 =>
      match parseStringRest (cs1.length + 1) cs1 [] with
      | none => none
      | some (k, cs2) =>
        match skipWs cs2 with
        | ':' :: cs3 =>
          match parseVal fuel (skipWs cs3) with
          | none => none
          | some (v, cs4) =>
            match skipWs cs4 with
            | ',' :: cs5 =>
                match skipWs cs5 with
                | c :: cs6 =>
                    if c = Char.ofNat 125 then none
                    else parseObjItems fuel (c :: cs6) (dictInsert acc k v)
                | [] => none
            | c :: cs5 =>
                if c = Char.ofNat 125 then some (dictInsert acc k v, cs5)
                else none
            | [] => none
        | _ => none
    | _ => none

end

/-- `json.loads`: parse one value surrounded by optional whitespace;
anything else (including the empty string) raises `JSONDecodeError`,
modelled as `none`. -/
def json_loads (s : String) : Option Json :=
  match parseVal (2 * s.data.length + 16) (skipWs s.data) with
  | some (v, rest) => if (skipWs rest).isEmpty then some v else none
  | none => none

def hexDigitChar (n : Nat) : Char :=
  if n < 10 then Char.ofNat (48 + n) else Char.ofNat (87 + n)

def hex4 (n : Nat) : String :=
  String.mk [hexDigitChar (n / 4096 % 16), hexDigitChar (n / 256 % 16),
             hexDigitChar (n / 16 % 16), hexDigitChar (n % 16)]

/-- One character of `json.dumps` output with the default
`ensure_ascii=True`: the two JSON escapes, the short control escapes,
`\uXXXX` for other controls and all non-ASCII (surrogate pairs beyond
the BMP), plain text for printable ASCII. -/
def escapeJsonChar (c : Char) : String :=
  if c = '"' then "\\\""
  else if c = '\\' then "\\\\"
  else if c = '\x08' then "\\b"
  else if c = '\x0c' then "\\f"
  else if c = '\n' then "\\n"
  else if c = '\x0d' then "\\r"
  else if c = '\t' then "\\t"
  else if c.toNat < 32 || c.toNat > 126 then
    if c.toNat ≥ 65536 then
      "\\u" ++ hex4 (55296 + (c.toNat - 65536) / 1024) ++
      "\\u" ++ hex4 (56320 + (c.toNat - 65536) % 1024)
    else "\\u" ++ hex4 c.toNat
  else String.singleton c

def dumpJsonString (s : String) : String :=
  "\"" ++ String.join (s.data.map escapeJsonChar) ++ "\""

mutual

/-- `json.dumps` with the default separators `", "` and `": "`.  The
`num` / `nan` / `infinity` forms never occur in the values this client
serializes (coercion produces only int/bool/str), so their rendering is
schematic. -/
def json_dumps : Json → String
  | Json.null => "null"
  | Json.bool true => "true"
  | Json.bool false => "false"
  | Json.int n => toString n
  | Json.num m e => toString m ++ "e" ++ toString e
  | Json.nan => "NaN"
  | Json.infinity true => "-Infinity"
  | Json.infinity false => "Infinity"
  | Json.str s => dumpJsonString s
  | Json.arr xs => "[" ++ dumpArr xs ++ "]"
  | Json.obj kvs => "\x7b" ++ dumpObj kvs ++ "\x7d"

def dumpArr : List Json → String
  | [] => ""
  | [x] => json_dumps x
  | x :: y :: rest => json_dumps x ++ ", " ++ dumpArr (y :: rest)

def dumpObj : List (String × Json) → String
  | [] => ""
  | [(k, v)] => dumpJsonString k ++ ": " ++ json_dumps v
  | (k, v) :: p :: rest =>
      dumpJsonString k ++ ": " ++ json_dumps v ++ ", " ++ dumpObj (p :: rest)

end

/-! ## Configuration key tables and the key=value coercion loop of `main` -/

def LOCK_CONFIG_KEYS_basic : List String :=
  ["name", "latitude", "longitude", "autoUnlatch", "pairingEnabled",
   "buttonEnabled", "ledEnabled", "ledBrightness", "timeZoneOffset",
   "dstMode", "fobAction1", "fobAction2", "fobAction3", "singleLock",
   "advertisingMode", "timeZone"]

def LOCK_CONFIG_KEYS_advanced : List String :=
  ["unlockedPositionOffsetDegrees", "lockedPositionOffsetDegrees",
   "singleLockedPositionOffsetDegrees", "unlockedToLockedTransitionOffsetDegrees",
   "lockNgoTimeout", "singleButtonPressAction", "doubleButtonPressAction",
   "detachedCylinder", "batteryType", "automaticBatteryTypeDetection",
   "unlatchDuration", "autoLockTimeOut", "autoUnLockDisabled",
   "nightModeEnabled", "nightModeStartTime", "nightModeEndTime",
   "nightModeAutoLockEnabled", "nightModeAutoUnlockDisabled",
   "nightModeImmediateLockOnStart", "autoLockEnabled",
   "immediateAutoLockEnabled", "autoUpdateEnabled", "rebootNuki",
   "motorSpeed", "enableSlowSpeedDuringNightMode", "recalibrateNuki"]

def OPENER_CONFIG_KEYS_basic : List String :=
  ["name", "latitude", "longitude", "pairingEnabled", "buttonEnabled",
   "ledFlashEnabled", "timeZoneOffset", "dstMode", "fobAction1",
   "fobAction2", "fobAction3", "operatingMode", "advertisingMode", "timeZone"]

def OPENER_CONFIG_KEYS_advanced : List String :=
  ["intercomID", "busModeSwitch", "shortCircuitDuration",
   "electricStrikeDelay", "randomElectricStrikeDelay",
   "electricStrikeDuration", "disableRtoAfterRing", "rtoTimeout",
   "doorbellSuppression", "doorbellSuppressionDuration", "soundRing",
   "soundOpen", "soundRto", "soundCm", "soundConfirmation", "soundLevel",
   "singleButtonPressAction", "doubleButtonPressAction", "batteryType",
   "automaticBatteryTypeDetection", "rebootNuki", "recalibrateNuki"]

def HUB_CONFIG_KEYS : List String :=
  ["dhcpena", "ipaddr", "ipsub", "ipgtw", "dnssrv", "hostname", "wifiSSID",
   "wifiPass", "mqttlog", "mqtt_lock_path", "authmaxentry", "authInfoEna",
   "authPerEntry", "cred_user", "cred_password", "kpmaxentry",
   "kpInfoEnabled", "kpPerEntry", "kpPubCode", "tcmaxentry", "tcPerEntry",
   "tcInfoEnabled", "pubAuth", "cnfInfoEnabled", "lockStInterval",
   "configInterval", "batInterval", "kpInterval", "nrRetry", "rtryDelay",
   "hybridTimer", "rssipb", "nettmout", "regAsApp", "regOpnAsApp",
   "bleTxPwr", "checkupdates", "openercont", "webserver_enabled"]

/-- `valid_keys` as computed in `main` for each target. -/
def validKeysFor (target : String) : List String :=
  if target = "lock" then LOCK_CONFIG_KEYS_basic ++ LOCK_CONFIG_KEYS_advanced
  else if target = "opener" then OPENER_CONFIG_KEYS_basic ++ OPENER_CONFIG_KEYS_advanced
  else if target = "hub" then HUB_CONFIG_KEYS
  else []

/-- `setting.split("=", 1)` guarded by `"=" in setting`: split at the
first equals sign, or fail when there is none. -/
def splitFirstEq : List Char → Option (List Char × List Char)
  | [] => none
  | '=' :: rest => some ([], rest)
  | c :: rest => (splitFirstEq rest).map (fun p => (c :: p.1, p.2))

def splitEq (s : String) : Option (String × String) :=
  (splitFirstEq s.data).map (fun p => (String.mk p.1, String.mk p.2))

/-- The sequential try/except fallback of `main`: `int(value)` first,
then case-insensitive true/false, else the raw string. -/
def coerceValue (value : String) : Json :=
  match pyInt value with
  | some n => Json.int n
  | none =>
    if pyLower value = "true" then Json.bool true
    else if pyLower value = "false" then Json.bool false
    else Json.str value

/-- Diagnostics printed by the settings loop of `main`. -/
inductive Warning where
  | invalidSetting (s : String) : Warning
  | unknownKey (k : String) : Warning
deriving DecidableEq

/-- One iteration of the settings loop of `main`: malformed entries are
dropped with a warning; the unknown-key warning is emitted only when the
target is not `hub`; every well-formed entry is stored. -/
def processSetting (target : String) (acc : List (String × Json) × List Warning)
    (setting : String) : List (String × Json) × List Warning :=
  match splitEq setting with
  | none => (acc.1, acc.2 ++ [Warning.invalidSetting setting])
  | some (key, value) =>
      let ws :=
        if target ≠ "hub" && !((validKeysFor target).contains key) then
          acc.2 ++ [Warning.unknownKey key]
        else acc.2
      (dictInsert acc.1 key (coerceValue value), ws)

/-- The whole settings loop of `main`, producing `config_data` and the
warnings printed along the way. -/
def parseSettings (target : String) (settings : List String) :
    List (String × Json) × List Warning :=
  settings.foldl (processSetting target) ([], [])

/-! ## The MQTT client state machine (`NukiConfigClient`) -/

def BASE_TOPIC : String := "nuki/hub"
def TOPIC_ACTION_SUFFIX : String := "/configuration/action"
def TOPIC_RESULT_SUFFIX : String := "/configuration/commandResult"

/-- The response slot: `on_message` stores either the `json.loads` value
or, when parsing fails, the raw payload string. -/
inductive Resp where
  | parsed (j : Json) : Resp
  | raw (s : String) : Resp

/-- The value `self.response` holds after the assignment
`self.response = json.loads(payload)` (falling back to
`self.response = payload` on a decode error): a payload parsing to JSON
`null` stores Python `None`, which leaves the slot observationally unset
— the `while self.response is None` loop keeps waiting. -/
def respOfPayload (payload : String) : Option Resp :=
  match json_loads payload with
  | some Json.null => none
  | some j => some (Resp.parsed j)
  | none => some (Resp.raw payload)

/-- The mutable fields of `NukiConfigClient` (set in `__init__`) together
with the transport-side set of subscribed topics: the paho client
delivers a message to `on_message` only when its topic is subscribed
(exact match; this client uses no wildcards). -/
structure ClientState where
  base_topic : String
  response : Option Resp
  waiting_for_topic : Option String
  ip_address : Option String
  subs : List String

/-- A freshly constructed client (`__init__`): empty response slot, no
awaited topic, no discovered IP, no subscriptions. -/
def initState (base : String) : ClientState :=
  { base_topic := base, response := none, waiting_for_topic := none,
    ip_address := none, subs := [] }

/-- Python truthiness of the `Optional[str]` field `waiting_for_topic`
(`None` and the empty string are falsy). -/
def truthyOptStr : Option String → Bool
  | none => false
  | some s => s ≠ ""

/-- The `on_message` callback: an `/info/nukiHubIp`-suffixed topic stores
the payload as the IP address and returns; a message on the awaited
topic is dropped when it is the `"--"` sentinel, otherwise the slot is
assigned the parsed payload (Python `None` — an unset slot — when the
payload is JSON `null`) or, on decode error, the raw string. -/
def on_message (st : ClientState) (topic payload : String) : ClientState :=
  if strEndsWith topic "/info/nukiHubIp" then
    { st with ip_address := some payload }
  else if truthyOptStr st.waiting_for_topic && st.waiting_for_topic = some topic then
    if payload = "--" then st
    else { st with response := respOfPayload payload }
  else st

/-- Transport delivery: `on_message` fires only for subscribed topics. -/
def deliver (st : ClientState) (topic payload : String) : ClientState :=
  if st.subs.contains topic then on_message st topic payload else st

/-- Idempotent subscribe. -/
def addSub (subs : List String) (t : String) : List String :=
  if subs.contains t then subs else subs ++ [t]

def removeSub (subs : List String) (t : String) : List String :=
  subs.filter (fun s => s ≠ t)

/-- The externally visible transport calls made during one session. -/
inductive Event where
  | sub (topic : String) : Event
  | unsub (topic : String) : Event
  | pub (topic payload : String) : Event
deriving DecidableEq

/-- The polling loop of `update_config`: deliver trace messages in order
until the response slot is filled; an exhausted trace is the deadline
passing with the slot still empty. -/
def awaitResponse : ClientState → List (String × String) → ClientState
  | st, [] => st
  | st, m :: rest =>
      if st.response.isSome then st
      else awaitResponse (deliver st m.1 m.2) rest

/-- Topic namespace selection at the top of `update_config`; `none` is
the `raise ValueError` branch. -/
def topicBaseFor (st : ClientState) (target : String) : Option String :=
  if target = "hub" then some st.base_topic
  else if target = "lock" then some (st.base_topic ++ "/lock")
  else if target = "opener" then some (st.base_topic ++ "/opener")
  else none

/-- `update_config`: validate the target (raising `ValueError` before any
side effect otherwise), record the awaited topic, clear the slot,
subscribe, publish the serialized map, poll until response or deadline,
then unsubscribe and return the slot (possibly still `None`).  The trace
`msgs` lists the bus messages delivered before the deadline. -/
def update_config (st : ClientState) (target : String)
    (config : List (String × Json)) (msgs : List (String × String)) :
    Except String (Option Resp) × ClientState × List Event :=
  match topicBaseFor st target with
  | none => (Except.error "Target must be 'hub', 'lock', or 'opener'", st, [])
  | some tb =>
    let action_topic := tb ++ TOPIC_ACTION_SUFFIX
    let result_topic := tb ++ TOPIC_RESULT_SUFFIX
    let st1 : ClientState :=
      { st with waiting_for_topic := some result_topic, response := none,
                subs := addSub st.subs result_topic }
    let payload := json_dumps (Json.obj config)
    let st2 := awaitResponse st1 msgs
    let st3 : ClientState := { st2 with subs := removeSub st2.subs result_topic }
    (Except.ok st2.response, st3,
     [Event.sub result_topic, Event.pub action_topic payload,
      Event.unsub result_topic])

/-- The polling loop of `wait_for_ip`. -/
def awaitIp : ClientState → List (String × String) → ClientState
  | st, [] => st
  | st, m :: rest =>
      if st.ip_address.isSome then st
      else awaitIp (deliver st m.1 m.2) rest

/-- The exit paths of `wait_for_ip`: the timeout path is the `return
None` inside the loop, which skips the `unsubscribe` call; only the
success path after the loop unsubscribes. -/
def waitIpFinish (ip_topic : String) (st2 : ClientState) :
    Option String × ClientState × List Event :=
  match st2.ip_address with
  | none => (none, st2, [Event.sub ip_topic])
  | some ip =>
      (some ip, { st2 with subs := removeSub st2.subs ip_topic },
       [Event.sub ip_topic, Event.unsub ip_topic])

/-- `wait_for_ip`: subscribe to the announcement topic, poll until the
IP slot is filled or the deadline passes, then take the matching exit
path. -/
def wait_for_ip (st : ClientState) (msgs : List (String × String)) :
    Option String × ClientState × List Event :=
  waitIpFinish (st.base_topic ++ "/info/nukiHubIp")
    (awaitIp { st with subs := addSub st.subs (st.base_topic ++ "/info/nukiHubIp") }
      msgs)

/-! ## The artifact fetcher (`fetch_coredump`) -/

/-- The outcome of `urllib.request.urlopen` plus body read: success with
the body bytes, an `HTTPError` with status and reason, or any other
exception with its message. -/
inductive HttpResult where
  | ok (body : List Nat) : HttpResult
  | httpError (code : Nat) (reason : String) : HttpResult
  | otherError (msg : String) : HttpResult

/-- What `fetch_coredump` reports for each outcome. -/
inductive FetchOutcome where
  | saved (file : String) (data : List Nat) : FetchOutcome
  | notFound : FetchOutcome
  | authFailed : FetchOutcome
  | httpErr (code : Nat) (reason : String) : FetchOutcome
  | genericError (msg : String) : FetchOutcome

/-- The try/except ladder of `fetch_coredump` after the request: success
writes the body verbatim to the output file; `HTTPError` is split on
code 404, then 401, then the generic status report; any other exception
becomes the generic fetch error. -/
def classifyFetch (output_file : String) (r : HttpResult) : FetchOutcome :=
  match r with
  | HttpResult.ok body => FetchOutcome.saved output_file body
  | HttpResult.httpError code reason =>
      if code = 404 then FetchOutcome.notFound
      else if code = 401 then FetchOutcome.authFailed
      else FetchOutcome.httpErr code reason
  | HttpResult.otherError msg => FetchOutcome.genericError msg

/-! ## Helper lemmas -/

lemma revPrefixOf_append (needle : List Char) : ∀ (u v : List Char),
    needle.length ≤ u.length → revPrefixOf needle (u ++ v) = revPrefixOf needle u := by
  induction needle with
  | nil => intro u v _; rfl
  | cons a as ih =>
      intro u v hlen
      cases u with
      | nil => simp at hlen
      | cons b bs =>
          simp only [List.cons_append, revPrefixOf]
          rw [show bs.append v = bs ++ v from rfl, ih bs v (by simpa using hlen)]

lemma revPrefixOf_refl : ∀ l : List Char, revPrefixOf l l = true := by
  intro l
  induction l with
  | nil => rfl
  | cons a as ih => simp [revPrefixOf, ih]

/-- Any topic obtained by appending the announcement suffix ends with it. -/
lemma strEndsWith_info (base : String) :
    strEndsWith (base ++ "/info/nukiHubIp") "/info/nukiHubIp" = true := by
  unfold strEndsWith
  rw [String.data_append, List.reverse_append]
  rw [revPrefixOf_append _ _ _ (le_refl _)]
  exact revPrefixOf_refl _

/-- A command-result topic never ends with the announcement suffix, for
any topic base. -/
lemma strEndsWith_result (tb : String) :
    strEndsWith (tb ++ TOPIC_RESULT_SUFFIX) "/info/nukiHubIp" = false := by
  unfold strEndsWith TOPIC_RESULT_SUFFIX
  rw [String.data_append, List.reverse_append]
  rw [revPrefixOf_append _ _ _ (by decide)]
  decide

/-- A command-result topic is never the empty string. -/
lemma result_topic_ne_empty (tb : String) : tb ++ TOPIC_RESULT_SUFFIX ≠ "" := by
  intro h
  have : (tb ++ TOPIC_RESULT_SUFFIX).data = ("" : String).data := by rw [h]
  rw [String.data_append] at this
  simp [TOPIC_RESULT_SUFFIX] at this

lemma removeSub_contains_self (l : List String) (t : String) :
    (removeSub l t).contains t = false := by
  induction l with
  | nil => rfl
  | cons a as ih =>
      by_cases h : a = t
      · simp [removeSub, List.filter, h, ih]
      · simp only [removeSub, List.filter] at ih ⊢
        simp [h, Ne.symm h, ih]

/-- `on_message` only ever touches the `response` and `ip_address`
fields. -/
lemma on_message_fields (st : ClientState) (topic payload : String) :
    (on_message st topic payload).base_topic = st.base_topic ∧
    (on_message st topic payload).waiting_for_topic = st.waiting_for_topic ∧
    (on_message st topic payload).subs = st.subs := by
  unfold on_message
  split
  · exact ⟨rfl, rfl, rfl⟩
  · split
    · split
      · exact ⟨rfl, rfl, rfl⟩
      · exact ⟨rfl, rfl, rfl⟩
    · exact ⟨rfl, rfl, rfl⟩

lemma deliver_fields (st : ClientState) (topic payload : String) :
    (deliver st topic payload).base_topic = st.base_topic ∧
    (deliver st topic payload).waiting_for_topic = st.waiting_for_topic ∧
    (deliver st topic payload).subs = st.subs := by
  unfold deliver
  split
  · exact on_message_fields st topic payload
  · exact ⟨rfl, rfl, rfl⟩

/-- Delivering a message that is not a non-sentinel message on the
awaited topic leaves the response slot unchanged. -/
lemma deliver_response_of_sentinel (st : ClientState) (rt topic payload : String)
    (hw : st.waiting_for_topic = some rt) (hm : topic = rt → payload = "--") :
    (deliver st topic payload).response = st.response := by
  unfold deliver on_message
  split
  · split
    · rfl
    · split
      · rename_i hcond
        split
        · rfl
        · rename_i hne
          exfalso
          simp only [hw, Bool.and_eq_true, decide_eq_true_eq, Option.some.injEq] at hcond
          exact hne (hm hcond.2.symm)
      · rfl
  · rfl

/-- The `update_config` polling loop never fills the slot when every
message on the awaited topic carries the sentinel payload. -/
lemma awaitResponse_no_resolve (rt : String) :
    ∀ (msgs : List (String × String)) (st : ClientState),
      st.waiting_for_topic = some rt → st.response = none →
      (∀ m ∈ msgs, m.1 = rt → m.2 = "--") →
      (awaitResponse st msgs).response = none := by
  intro msgs
  induction msgs with
  | nil => intro st _ h2 _; exact h2
  | cons m rest ih =>
      intro st h1 h2 h3
      unfold awaitResponse
      rw [h2]
      simp only [Option.isSome_none, Bool.false_eq_true, if_false]
      exact ih (deliver st m.1 m.2)
        (((deliver_fields st m.1 m.2).2.1).trans h1)
        ((deliver_response_of_sentinel st rt m.1 m.2 h1 (h3 m (by simp))).trans h2)
        (fun m' hm' => h3 m' (by simp [hm']))

/-- The discovery polling loop is inert once the IP slot is filled. -/
lemma awaitIp_stop (st : ClientState) (msgs : List (String × String))
    (h : st.ip_address.isSome) : awaitIp st msgs = st := by
  cases msgs with
  | nil => rfl
  | cons m rest => unfold awaitIp; rw [if_pos h]

/-- Running the discovery loop from a clean state yields the payload of
the first delivered message on the announcement topic (no sentinel
filtering), and messages on any other topic are filtered out by the
subscription set. -/
lemma awaitIp_run (base : String) :
    ∀ (msgs : List (String × String)) (st : ClientState),
      st.base_topic = base →
      st.subs = [base ++ "/info/nukiHubIp"] →
      st.ip_address = none →
      (awaitIp st msgs).ip_address =
        (msgs.find? (fun m => m.1 == base ++ "/info/nukiHubIp")).map Prod.snd := by
  intro msgs
  induction msgs with
  | nil => intro st _ _ h3; simpa [awaitIp] using h3
  | cons m rest ih =>
      intro st h1 h2 h3
      unfold awaitIp
      rw [h3]
      simp only [Option.isSome_none, Bool.false_eq_true, if_false]
      by_cases hm : m.1 = base ++ "/info/nukiHubIp"
      · have hdeliver : deliver st m.1 m.2 =
            { st with ip_address := some m.2 } := by
          unfold deliver on_message
          rw [h2, hm]
          simp [strEndsWith_info]
        rw [hdeliver, awaitIp_stop _ _ (by simp)]
        rw [List.find?_cons_of_pos _ (by simp [hm])]
        rfl
      · have hdeliver : deliver st m.1 m.2 = st := by
          unfold deliver
          rw [h2]
          simp [List.contains_cons, hm]
        rw [hdeliver, List.find?_cons_of_neg _ (by simp [hm])]
        exact ih st h1 h2 h3

/-- The value returned by `wait_for_ip` is whatever the IP slot holds
when the loop stops. -/
lemma waitIpFinish_fst (t : String) (st2 : ClientState) :
    (waitIpFinish t st2).1 = st2.ip_address := by
  cases h : st2.ip_address <;> simp [waitIpFinish, h]

/-! ## The claims -/

/-- C1 counterexample: the payload `"null"` parses successfully
(`json.loads("null")` is Python `None`), yet the assignment leaves the
response slot observationally unset, so the request does not resolve: an
`update_config` call whose only result-topic message is `"null"` runs to
the deadline and returns the no-response result, refuting "for any other
payload … the request resolves with that value". -/
theorem C1_counterexample_null_payload :
    json_loads "null" = some Json.null ∧
    (on_message
        { base_topic := "nuki/hub", response := none,
          waiting_for_topic := some "nuki/hub/lock/configuration/commandResult",
          ip_address := none,
          subs := ["nuki/hub/lock/configuration/commandResult"] }
        "nuki/hub/lock/configuration/commandResult" "null").response = none ∧
    (update_config (initState "nuki/hub") "lock" []
        [("nuki/hub/lock/configuration/commandResult", "null")]).1 =
      Except.ok none := ⟨rfl, rfl, rfl⟩

/-- C1 amended: for every inbound message on the result topic the
correlator is awaiting, the sentinel payload `"--"` leaves the whole
state unchanged (slot unset, request still awaiting); any other payload
is assigned to the slot — the JSON-parsed value when parsing succeeds,
the raw payload string otherwise — and the request resolves with that
value, except that a payload parsing to JSON `null` stores Python `None`
and so leaves the slot observationally unset, the request still
awaiting; the correlator never resolves on `"--"` (nor on `"null"`). -/
theorem C1_sentinel_skip_and_resolve (st : ClientState) (tb payload : String)
    (hw : st.waiting_for_topic = some (tb ++ TOPIC_RESULT_SUFFIX)) :
    (payload = "--" → on_message st (tb ++ TOPIC_RESULT_SUFFIX) payload = st) ∧
    (payload ≠ "--" →
      (on_message st (tb ++ TOPIC_RESULT_SUFFIX) payload).waiting_for_topic =
        st.waiting_for_topic ∧
      (∀ j, json_loads payload = some j → j ≠ Json.null →
        (on_message st (tb ++ TOPIC_RESULT_SUFFIX) payload).response =
          some (Resp.parsed j)) ∧
      (json_loads payload = none →
        (on_message st (tb ++ TOPIC_RESULT_SUFFIX) payload).response =
          some (Resp.raw payload)) ∧
      (json_loads payload = some Json.null →
        (on_message st (tb ++ TOPIC_RESULT_SUFFIX) payload).response =
          none)) := by
  have hinfo := strEndsWith_result tb
  have hne := result_topic_ne_empty tb
  have hcond : (truthyOptStr st.waiting_for_topic &&
      st.waiting_for_topic = some (tb ++ TOPIC_RESULT_SUFFIX)) = true := by
    rw [hw]
    simp [truthyOptStr, hne]
  constructor
  · intro hp
    unfold on_message
    rw [hinfo]
    simp only [Bool.false_eq_true, if_false, hcond, if_true]
    rw [if_pos hp]
  · intro hp
    unfold on_message
    rw [hinfo]
    simp only [Bool.false_eq_true, if_false, hcond, if_true]
    rw [if_neg hp]
    refine ⟨rfl, ?_, ?_, ?_⟩
    · intro j hj hjn
      show respOfPayload payload = some (Resp.parsed j)
      unfold respOfPayload
      rw [hj]
      cases j with
      | null => exact absurd rfl hjn
      | bool b => rfl
      | int n => rfl
      | num m e => rfl
      | nan => rfl
      | infinity b => rfl
      | str s2 => rfl
      | arr xs => rfl
      | obj kvs => rfl
    · intro hj
      show respOfPayload payload = some (Resp.raw payload)
      unfold respOfPayload
      rw [hj]
    · intro hj
      show respOfPayload payload = none
      unfold respOfPayload
      rw [hj]

/-- C1 witness: a concrete awaiting state; the sentinel is skipped, a
non-JSON payload resolves to the raw string, a JSON object payload
resolves to the parsed object, and the `"null"` payload leaves the slot
unset. -/
theorem C1_witness :
    (let st : ClientState :=
      { base_topic := "nuki/hub", response := none,
        waiting_for_topic := some "nuki/hub/lock/configuration/commandResult",
        ip_address := none,
        subs := ["nuki/hub/lock/configuration/commandResult"] }
     on_message st "nuki/hub/lock/configuration/commandResult" "--" = st) ∧
    (let st : ClientState :=
      { base_topic := "nuki/hub", response := none,
        waiting_for_topic := some "nuki/hub/lock/configuration/commandResult",
        ip_address := none,
        subs := ["nuki/hub/lock/configuration/commandResult"] }
     (on_message st "nuki/hub/lock/configuration/commandResult" "ok").response =
        some (Resp.raw "ok")) ∧
    (let st : ClientState :=
      { base_topic := "nuki/hub", response := none,
        waiting_for_topic := some "nuki/hub/lock/configuration/commandResult",
        ip_address := none,
        subs := ["nuki/hub/lock/configuration/commandResult"] }
     (on_message st "nuki/hub/lock/configuration/commandResult" "true").response =
        some (Resp.parsed (Json.bool true))) ∧
    (let st : ClientState :=
      { base_topic := "nuki/hub", response := none,
        waiting_for_topic := some "nuki/hub/lock/configuration/commandResult",
        ip_address := none,
        subs := ["nuki/hub/lock/configuration/commandResult"] }
     (on_message st "nuki/hub/lock/configuration/commandResult" "null").response =
        none) := by
  refine ⟨?_, ?_, ?_, ?_⟩
  · exact (C1_sentinel_skip_and_resolve _ "nuki/hub/lock" "--" rfl).1 rfl
  · exact ((C1_sentinel_skip_and_resolve
      { base_topic := "nuki/hub", response := none,
        waiting_for_topic := some "nuki/hub/lock/configuration/commandResult",
        ip_address := none,
        subs := ["nuki/hub/lock/configuration/commandResult"] }
      "nuki/hub/lock" "ok" rfl).2 (by decide)).2.2.1 rfl
  · exact ((C1_sentinel_skip_and_resolve
      { base_topic := "nuki/hub", response := none,
        waiting_for_topic := some "nuki/hub/lock/configuration/commandResult",
        ip_address := none,
        subs := ["nuki/hub/lock/configuration/commandResult"] }
      "nuki/hub/lock" "true" rfl).2 (by decide)).2.1 (Json.bool true) rfl
      (by intro h; exact Json.noConfusion h)
  · exact ((C1_sentinel_skip_and_resolve
      { base_topic := "nuki/hub", response := none,
        waiting_for_topic := some "nuki/hub/lock/configuration/commandResult",
        ip_address := none,
        subs := ["nuki/hub/lock/configuration/commandResult"] }
      "nuki/hub/lock" "null" rfl).2 (by decide)).2.2.2 rfl

/-- C2: every `update_config` call with a valid target returns normally
(an `Except.ok`, never an exception), its transport log holds exactly one
subscribe and one unsubscribe of the result topic with the unsubscribe
performed before returning, the result topic is no longer subscribed in
the final state, and when no non-sentinel message arrives on the result
topic before the deadline the returned value is the explicit
`None`/no-response result. -/
theorem C2_timeout_returns_none_and_unsubscribes (st : ClientState)
    (target tb : String) (config : List (String × Json))
    (msgs : List (String × String)) (htb : topicBaseFor st target = some tb) :
    ∃ res st',
      update_config st target config msgs =
        (Except.ok res, st',
         [Event.sub (tb ++ TOPIC_RESULT_SUFFIX),
          Event.pub (tb ++ TOPIC_ACTION_SUFFIX) (json_dumps (Json.obj config)),
          Event.unsub (tb ++ TOPIC_RESULT_SUFFIX)]) ∧
      st'.subs.contains (tb ++ TOPIC_RESULT_SUFFIX) = false ∧
      ((∀ m ∈ msgs, m.1 = tb ++ TOPIC_RESULT_SUFFIX → m.2 = "--") →
        res = none) := by
  unfold update_config
  rw [htb]
  refine ⟨_, _, rfl, removeSub_contains_self _ _, ?_⟩
  intro hms
  exact awaitResponse_no_resolve (tb ++ TOPIC_RESULT_SUFFIX) msgs _ rfl rfl hms

/-- C2 witness: a concrete call seeing only a sentinel message before the
deadline returns the no-response `none` with balanced subscribe and
unsubscribe events. -/
theorem C2_witness :
    ∃ res st',
      update_config (initState "nuki/hub") "lock" [("ledBrightness", Json.int 2)]
          [("nuki/hub/lock/configuration/commandResult", "--")] =
        (Except.ok res, st',
         [Event.sub ("nuki/hub/lock" ++ TOPIC_RESULT_SUFFIX),
          Event.pub ("nuki/hub/lock" ++ TOPIC_ACTION_SUFFIX)
            (json_dumps (Json.obj [("ledBrightness", Json.int 2)])),
          Event.unsub ("nuki/hub/lock" ++ TOPIC_RESULT_SUFFIX)]) ∧
      st'.subs.contains ("nuki/hub/lock" ++ TOPIC_RESULT_SUFFIX) = false ∧
      res = none := by
  obtain ⟨res, st', heq, hsub, hnone⟩ :=
    C2_timeout_returns_none_and_unsubscribes (initState "nuki/hub") "lock"
      "nuki/hub/lock" [("ledBrightness", Json.int 2)]
      [("nuki/hub/lock/configuration/commandResult", "--")] rfl
  exact ⟨res, st', heq, hsub, hnone (by decide)⟩

/-- C10: for any target other than `hub`, `lock` or `opener`,
`update_config` raises `ValueError` before any side effect: the state is
returned untouched (response slot, awaited topic and subscriptions
included) and no subscribe, publish or unsubscribe happens. -/
theorem C10_invalid_target_no_side_effect (st : ClientState) (target : String)
    (config : List (String × Json)) (msgs : List (String × String))
    (h1 : target ≠ "hub") (h2 : target ≠ "lock") (h3 : target ≠ "opener") :
    update_config st target config msgs =
      (Except.error "Target must be 'hub', 'lock', or 'opener'", st, []) := by
  unfold update_config topicBaseFor
  rw [if_neg h1, if_neg h2, if_neg h3]

/-- C10 witness: the invalid target `"garage"`. -/
theorem C10_witness :
    update_config (initState "nuki/hub") "garage" [] [] =
      (Except.error "Target must be 'hub', 'lock', or 'opener'",
       initState "nuki/hub", []) :=
  C10_invalid_target_no_side_effect (initState "nuki/hub") "garage" [] []
    (by decide) (by decide) (by decide)

/-- C4 counterexample: a session on a client holding an address left
over from an earlier session does not resolve with the payload of the
first (and only) announcement received during the session — it returns
the leftover value instead, refuting the claim's universal "for every
discovery session". -/
theorem C4_counterexample_stale_session :
    (wait_for_ip
        { initState "nuki/hub" with ip_address := some "172.16.0.9" }
        [("nuki/hub/info/nukiHubIp", "10.1.1.1")]).1 = some "172.16.0.9" ∧
    ("172.16.0.9" : String) ≠ "10.1.1.1" := ⟨rfl, by decide⟩

/-- C4 amended: every discovery session that begins with the discovery
state unset and no leftover subscriptions resolves with the payload of
the first message delivered on the announcement topic, whatever that
payload is (`"--"` included), and messages on any other topic never
affect the discovered value: the result is exactly the first
announcement-topic payload in the trace, or `None` when there is none.
(A session beginning with a leftover discovery-state value returns that
value instead — see the counterexample.) -/
theorem C4_discovery_first_announcement (st : ClientState)
    (msgs : List (String × String)) (hsubs : st.subs = [])
    (hip : st.ip_address = none) :
    (wait_for_ip st msgs).1 =
      (msgs.find? (fun m => m.1 == st.base_topic ++ "/info/nukiHubIp")).map
        Prod.snd := by
  unfold wait_for_ip
  rw [waitIpFinish_fst]
  exact awaitIp_run st.base_topic msgs _ rfl (by simp [addSub, hsubs]) hip

/-- C4 witness: an off-topic message is ignored, and the sentinel payload
`"--"` of the first announcement is accepted as the address even though a
later announcement follows. -/
theorem C4_witness :
    (initState "nuki/hub").subs = [] ∧
    (wait_for_ip (initState "nuki/hub")
        [("unrelated/topic", "x"),
         ("nuki/hub/info/nukiHubIp", "--"),
         ("nuki/hub/info/nukiHubIp", "192.168.1.5")]).1 = some "--" := by
  refine ⟨rfl, ?_⟩
  rw [C4_discovery_first_announcement (initState "nuki/hub") _ rfl rfl]
  rfl

/-- C5 (the code bug): on the timeout exit path `wait_for_ip` returns
`None` from inside the polling loop without ever calling `unsubscribe`:
after a session with no announcement the event log holds the subscribe
only and the announcement topic is still in the subscription set. -/
theorem C5_timeout_path_skips_unsubscribe :
    (wait_for_ip (initState "nuki/hub") []).1 = none ∧
    (wait_for_ip (initState "nuki/hub") []).2.2 =
      [Event.sub "nuki/hub/info/nukiHubIp"] ∧
    (wait_for_ip (initState "nuki/hub") []).2.1.subs =
      ["nuki/hub/info/nukiHubIp"] := ⟨rfl, rfl, rfl⟩

/-- C6 counterexample: a client holding an address left over from an
earlier session returns it from a new `wait_for_ip` call even though
that session's only announcement carried a different address — the
DiscoveryState is not cleared at session start. -/
theorem C6_counterexample_stale_value :
    (wait_for_ip
        { initState "nuki/hub" with ip_address := some "10.0.0.1" }
        [("nuki/hub/info/nukiHubIp", "9.9.9.9")]).1 = some "10.0.0.1" ∧
    ("10.0.0.1" : String) ≠ "9.9.9.9" := ⟨rfl, by decide⟩

/-- C6 amended: the stored IP address is initialized only at client
construction and never cleared at the start of a discovery session;
whenever it is already set, `wait_for_ip` returns that leftover value
immediately, regardless of the announcements delivered during the
session. -/
theorem C6_stale_discovery_state (st : ClientState) (ip : String)
    (msgs : List (String × String)) (hip : st.ip_address = some ip) :
    (wait_for_ip st msgs).1 = some ip := by
  unfold wait_for_ip
  rw [waitIpFinish_fst, awaitIp_stop _ _ (by simp [hip])]
  exact hip

/-- C6 amended witness: the counterexample state evaluated through the
amended statement. -/
theorem C6_stale_witness :
    (wait_for_ip
        { initState "nuki/hub" with ip_address := some "10.0.0.1" }
        [("nuki/hub/info/nukiHubIp", "9.9.9.9")]).1 = some "10.0.0.1" :=
  C6_stale_discovery_state
    { initState "nuki/hub" with ip_address := some "10.0.0.1" } "10.0.0.1"
    [("nuki/hub/info/nukiHubIp", "9.9.9.9")] rfl

lemma dictLookup_replace (k : String) (v : Json) :
    ∀ d : List (String × Json), d.any (fun p => p.1 = k) = true →
      dictLookup (d.map (fun p => if p.1 = k then (k, v) else p)) k = some v := by
  intro d
  induction d with
  | nil => intro h; simp at h
  | cons p rest ih =>
      intro h
      by_cases hp : p.1 = k
      · simp [dictLookup, hp]
      · simp only [List.map_cons, if_neg hp, dictLookup, hp, if_false]
        simp only [List.any_cons, hp, Bool.or_eq_true, decide_eq_true_eq,
          false_or] at h
        exact ih h

lemma dictLookup_append_new (k : String) (v : Json) :
    ∀ d : List (String × Json), d.any (fun p => p.1 = k) = false →
      dictLookup (d ++ [(k, v)]) k = some v := by
  intro d
  induction d with
  | nil => intro _; simp [dictLookup]
  | cons p rest ih =>
      intro h
      simp only [List.any_cons, Bool.or_eq_false_iff, decide_eq_false_iff_not] at h
      simp only [List.cons_append, dictLookup, if_neg h.1]
      exact ih (by simpa using h.2)

/-- Inserting a binding makes it visible to lookup. -/
lemma dictLookup_dictInsert (d : List (String × Json)) (k : String) (v : Json) :
    dictLookup (dictInsert d k v) k = some v := by
  unfold dictInsert
  cases h : d.any (fun p => p.1 = k) with
  | true => rw [if_pos rfl]; exact dictLookup_replace k v d h
  | false =>
      rw [if_neg (by decide)]
      exact dictLookup_append_new k v d h

/-- C7 counterexample: for the `hub` target a well-formed entry with a
key absent from the hub schema is stored in the output map but produces
no warning at all — the loop warns only when the target is not `hub`. -/
theorem C7_counterexample_hub_no_warning :
    HUB_CONFIG_KEYS.contains "bogusKey" = false ∧
    validKeysFor "hub" = HUB_CONFIG_KEYS ∧
    parseSettings "hub" ["bogusKey=1"] = ([("bogusKey", Json.int 1)], []) := by
  refine ⟨by decide, rfl, rfl⟩

/-- C7 amended: a well-formed `key=value` entry whose key is absent from
the target's schema is always included in the output map (readable under
its key with the coerced value), and the "unrecognized key" warning is
emitted exactly when the target is not `hub`: for `lock` and `opener` the
warning is appended, for `hub` the warnings are left unchanged. -/
theorem C7_unknown_key_warn_and_include (target s key value : String)
    (d : List (String × Json)) (ws : List Warning)
    (hs : splitEq s = some (key, value))
    (hk : (validKeysFor target).contains key = false) :
    (processSetting target (d, ws) s).1 = dictInsert d key (coerceValue value) ∧
    dictLookup (processSetting target (d, ws) s).1 key = some (coerceValue value) ∧
    (target ≠ "hub" →
      (processSetting target (d, ws) s).2 = ws ++ [Warning.unknownKey key]) ∧
    (target = "hub" → (processSetting target (d, ws) s).2 = ws) := by
  unfold processSetting
  rw [hs]
  refine ⟨rfl, dictLookup_dictInsert d key (coerceValue value), ?_, ?_⟩
  · intro ht
    have hk2 : key ∉ validKeysFor target := by simpa using hk
    simp [ht, hk2]
  · intro ht
    simp [ht]

/-- C7 witness: the unknown key `bogusKey` on target `lock` is warned
about and still stored; on target `hub` it is stored without warning. -/
theorem C7_witness :
    (processSetting "lock" ([], []) "bogusKey=1").1 =
      [("bogusKey", Json.int 1)] ∧
    (processSetting "lock" ([], []) "bogusKey=1").2 =
      [Warning.unknownKey "bogusKey"] ∧
    (processSetting "hub" ([], []) "bogusKey=1").2 = [] := by
  obtain ⟨h1, _, h3, _⟩ :=
    C7_unknown_key_warn_and_include "lock" "bogusKey=1" "bogusKey" "1" [] []
      rfl (by decide)
  obtain ⟨_, _, _, h4⟩ :=
    C7_unknown_key_warn_and_include "hub" "bogusKey=1" "bogusKey" "1" [] []
      rfl (by decide)
  exact ⟨h1, h3 (by decide), h4 rfl⟩

/-- C8: the artifact fetcher classifies the HTTP outcome exactly as the
spec says — success writes the body bytes verbatim to the output file,
404 is the distinct not-present outcome, 401 the distinct
authentication-failure outcome, any other HTTP status becomes the generic
status report carrying code and reason, and any transport failure the
generic fetch error carrying its message. -/
theorem C8_fetch_classification (file reason msg : String) (code : Nat)
    (body : List Nat) :
    classifyFetch file (HttpResult.ok body) = FetchOutcome.saved file body ∧
    classifyFetch file (HttpResult.httpError 404 reason) = FetchOutcome.notFound ∧
    classifyFetch file (HttpResult.httpError 401 reason) =
      FetchOutcome.authFailed ∧
    (code ≠ 404 → code ≠ 401 →
      classifyFetch file (HttpResult.httpError code reason) =
        FetchOutcome.httpErr code reason) ∧
    classifyFetch file (HttpResult.otherError msg) =
      FetchOutcome.genericError msg := by
  refine ⟨rfl, rfl, rfl, ?_, rfl⟩
  intro h1 h2
  have hred : classifyFetch file (HttpResult.httpError code reason) =
      (if code = 404 then FetchOutcome.notFound
       else if code = 401 then FetchOutcome.authFailed
       else FetchOutcome.httpErr code reason) := rfl
  rw [hred, if_neg h1, if_neg h2]

/-- C8 witness: the spec's own test vector — 404, 401, a 200 with the
two-byte body, and a 500 carrying its status. -/
theorem C8_witness :
    classifyFetch "coredump.hex" (HttpResult.httpError 404 "Not Found") =
      FetchOutcome.notFound ∧
    classifyFetch "coredump.hex" (HttpResult.httpError 401 "Unauthorized") =
      FetchOutcome.authFailed ∧
    classifyFetch "coredump.hex" (HttpResult.ok [1, 2]) =
      FetchOutcome.saved "coredump.hex" [1, 2] ∧
    classifyFetch "coredump.hex" (HttpResult.httpError 500 "Server Error") =
      FetchOutcome.httpErr 500 "Server Error" := by
  obtain ⟨h1, h2, h3, h4, _⟩ :=
    C8_fetch_classification "coredump.hex" "Not Found" "" 500 [1, 2]
  refine ⟨h2, ?_, h1, ?_⟩
  · exact (C8_fetch_classification "coredump.hex" "Unauthorized" "" 500 []).2.2.1
  · exact (C8_fetch_classification "coredump.hex" "Server Error" "" 500 []).2.2.2.1
      (by decide) (by decide)

/-- C9: the end-to-end scenario — the three settings for target Lock
coerce to the typed map Integer 2 / Boolean true / String "MyLock" with
no warnings, `update_config` publishes their serialization exactly once
to the Lock action topic (the transport log holds exactly one publish,
of the serialized map, framed by the subscribe/unsubscribe pair), and
the result-topic reply parses to the structured object that the call
returns as its resolved value. -/
theorem C9_end_to_end_lock_scenario :
    parseSettings "lock" ["ledBrightness=2", "pairingEnabled=true", "name=MyLock"] =
      ([("ledBrightness", Json.int 2), ("pairingEnabled", Json.bool true),
        ("name", Json.str "MyLock")], []) ∧
    (update_config (initState "nuki/hub") "lock"
        [("ledBrightness", Json.int 2), ("pairingEnabled", Json.bool true),
         ("name", Json.str "MyLock")]
        [("nuki/hub/lock/configuration/commandResult",
          "\x7b\"ledBrightness\":2\x7d")]).2.2 =
      [Event.sub "nuki/hub/lock/configuration/commandResult",
       Event.pub "nuki/hub/lock/configuration/action"
         "\x7b\"ledBrightness\": 2, \"pairingEnabled\": true, \"name\": \"MyLock\"\x7d",
       Event.unsub "nuki/hub/lock/configuration/commandResult"] ∧
    (update_config (initState "nuki/hub") "lock"
        [("ledBrightness", Json.int 2), ("pairingEnabled", Json.bool true),
         ("name", Json.str "MyLock")]
        [("nuki/hub/lock/configuration/commandResult",
          "\x7b\"ledBrightness\":2\x7d")]).1 =
      Except.ok (some (Resp.parsed (Json.obj [("ledBrightness", Json.int 2)]))) :=
  ⟨rfl, rfl, rfl⟩

end NukiHub
